import Mathlib

/-!
Verification of the DART task-context management module
(dart_tasking_context.c): a shallow embedding of its data model and of the
operations `context_init`, `context_adjust_size`, `context_allocate`,
`context_free`, `context_create`, `context_release`, `context_entry`,
`context_swap` and `context_cleanup`, with theorems about the per-thread
context pool, the stack canaries, stack-size rounding, and the lifecycle API.

The embedding models the default build configuration of the module:
`USE_UCONTEXT` enabled, `USE_MMAP` and `USE_MPROTECT` disabled (both are
commented out at the top of the source file), and `DART_DEBUG` enabled where
the stack-canary logic is concerned.  C `size_t` arithmetic is modelled as
`Nat` reduced modulo `2^64` where overflow can occur.
-/

/-- Definition `DEFAULT_TASK_STACK_SIZE (1<<14)` (line 34): 16 KiB default
task stack size. -/
def DEFAULT_TASK_STACK_SIZE : Nat := 2 ^ 14

/-- Definition `PER_THREAD_CTX_STORE 10` (line 37): the maximum number of
contexts to store per thread, as used by `context_release`. -/
def PER_THREAD_CTX_STORE : Nat := 10

/-- Value of a C integer expression after conversion to `size_t`
(64-bit unsigned, reduction modulo `2^64`). -/
def size_t_of (i : Int) : Nat := (i % (2 : Int) ^ 64).toNat

/-- Record `context_t` (from dart_tasking_context.h): the saved execution
state plus the pending entry function and argument.  The saved `ucontext_t`
register state is abstracted away; `ss_sp` records the stack pointer
`ctx.uc_stack.ss_sp` as an abstract region identifier.  `fn` and `arg` are
`none` when the C pointers are `NULL`; non-null function and argument
pointers are abstracted as `Nat` identifiers. -/
structure context_t where
  fn : Option Nat
  arg : Option Nat
  ss_sp : Nat
  deriving Repr, DecidableEq

/-- Record `struct context_list_s` (lines 39-51): a Context Block.  `stack`
is the region identifier of `ctxlist->stack`; `length` is the counter used
by the pool logic; `sentLow` and `sentHigh` model the contents of the two
8-byte canary cells at `stack[0]` and `stack[task_stack_size - 8]` (memory
of the block's Stack Region, not C struct fields).  The `next` pointer is
represented by the position of the block in a Lean list. -/
structure context_list_t where
  ctx : context_t
  stack : Nat
  length : Nat
  sentLow : Nat
  sentHigh : Nat
  deriving Repr, DecidableEq

/-- Per-worker-thread state visible to this module: `ctxlist` is the
thread-local list `thread->ctxlist` (used both as the context pool and as
the active-context tracking list).  `nextRegion`, `allocCount` and
`freeCount` instrument the allocator: the next fresh region identifier
handed out by `context_allocate`, and the numbers of physical allocations
and frees performed so far. -/
structure ThreadState where
  ctxlist : List context_list_t
  nextRegion : Nat
  allocCount : Nat
  freeCount : Nat
  deriving Repr, DecidableEq

/-- Function `dart__tasking__context_adjust_size` (lines 64-69):
`(size + mask) & ~mask` with `mask = page_size - 1`, in `size_t` (64-bit)
arithmetic: the sum wraps modulo `2^64` and `~mask` is `(2^64 - 1) - mask`. -/
def dart__tasking__context_adjust_size (page_size size : Nat) : Nat :=
  let mask := page_size - 1
  ((size + mask) % 2 ^ 64) &&& ((2 ^ 64 - 1) - mask)

/-- Function `dart__tasking__context_init` (lines 71-81): computes the value
the global `task_stack_size` holds after initialization, given the result of
`dart__base__env__task_stacksize` and the system page size.

Modelled from the spec: `dart__base__env__task_stacksize` (env.h, which is
not under src/) returns the configured task stack size in bytes, or `-1`
when the setting is absent or invalid; its return value is the parameter
`env_ret` here.  Note that `env_stack_size` is declared `size_t` in the
source, so the comparison `env_stack_size > -1` compares against
`(size_t)-1` after the usual arithmetic conversions. -/
def dart__tasking__context_init (env_ret : Int) (page_size : Nat) : Nat :=
  let env_stack_size : Nat := size_t_of env_ret
  let ts0 := DEFAULT_TASK_STACK_SIZE
  let ts1 := if size_t_of (-1) < env_stack_size then env_stack_size else ts0
  if ts1 < page_size then page_size else ts1

/-- Function `dart__tasking__context_allocate` (lines 102-140) in the
default build (the `posix_memalign` branch, no `mmap`, no guard page):
obtains a fresh page-aligned block.  A fresh region identifier is drawn from
`nextRegion` (mirroring `ctxlist->stack = ((char*)ctxlist) + page_size`),
and `allocCount` counts the physical allocation; `next` is `NULL` and
`length` is `0`.  The `ctx` field is not initialized by the source here (it
is set up by `context_create`); the model uses zeroed placeholders. -/
def dart__tasking__context_allocate (st : ThreadState) :
    ThreadState × context_list_t :=
  let ctxlist : context_list_t :=
    { ctx := { fn := none, arg := none, ss_sp := 0 }
      stack := st.nextRegion
      length := 0
      sentLow := 0
      sentHigh := 0 }
  ({ st with nextRegion := st.nextRegion + 1, allocCount := st.allocCount + 1 },
   ctxlist)

/-- Function `dart__tasking__context_free` (lines 142-157) in the default
build: `free(ctxlist)`.  The freed block leaves the model and `freeCount`
counts the physical free. -/
def dart__tasking__context_free (st : ThreadState)
    (_ctxlist : context_list_t) : ThreadState :=
  { st with freeCount := st.freeCount + 1 }

/-- Function `dart__tasking__context_create` (lines 159-199) in the
`USE_UCONTEXT` plus `DART_DEBUG` build: pop the top pooled block if the
thread's list is non-empty (zeroing its `length` field), otherwise allocate
a fresh block and point its context at its stack
(`ctx.uc_stack.ss_sp = stack`); then write the `0xDEADBEEF` canaries at both
ends of the usable stack and store `fn` and `arg` on the context.  Returns
the updated thread state and the block holding the returned `context_t`. -/
def dart__tasking__context_create (st : ThreadState) (fn arg : Nat) :
    ThreadState × context_list_t :=
  let popped :=
    match st.ctxlist with
    | head :: rest => ({ st with ctxlist := rest }, { head with length := 0 })
    | [] =>
        let fresh := dart__tasking__context_allocate st
        (fresh.1, { fresh.2 with ctx := { fresh.2.ctx with ss_sp := fresh.2.stack } })
  let res0 := popped.2
  let res1 := { res0 with sentLow := 0xDEADBEEF, sentHigh := 0xDEADBEEF }
  (popped.1, { res1 with ctx := { res1.ctx with fn := some fn, arg := some arg } })

/-- The `DART_DEBUG` canary check of `dart__tasking__context_release`
(lines 205-216): `true` exactly when the source logs the possible
stack-overflow warning.  Note that the source combines the two mismatch
tests with `&&`. -/
def context_release_guard_warning (ctx : context_list_t) : Bool :=
  (ctx.sentLow != 0xDEADBEEF) && (ctx.sentHigh != 0xDEADBEEF)

/-- Function `dart__tasking__context_release` (lines 201-235) in the
`USE_UCONTEXT` plus `DART_DEBUG` build.  The released `context_t*` is
recovered to its containing block via `offsetof` in the source; here the
block is passed directly.  Returns the updated thread state and whether the
stack-overflow warning was logged. -/
def dart__tasking__context_release (st : ThreadState)
    (ctxlist : context_list_t) : ThreadState × Bool :=
  let warn := context_release_guard_warning ctxlist
  match st.ctxlist with
  | head :: _ =>
      if PER_THREAD_CTX_STORE < head.length then
        (dart__tasking__context_free st ctxlist, warn)
      else
        ({ st with
            ctxlist := { ctxlist with length := head.length + 1 } :: st.ctxlist },
         warn)
  | [] =>
      ({ st with ctxlist := { ctxlist with length := 0 + 1 } :: st.ctxlist },
       warn)

/-- Outcome of the entry trampoline `dart__tasking__context_entry`:
`assert_null_ctxlist` models `DART_ASSERT(ctxlist != NULL)` firing after the
pop; `call_null_fn` the (undefined) call through a `NULL` function pointer;
`invoke fn arg blk st` records that `fn(arg)` is invoked, with the popped
block `blk` (whose entry fields have already been cleared) and the thread
state `st` as they stand at the moment of the call. -/
inductive EntryOutcome where
  | assert_null_ctxlist
  | call_null_fn
  | invoke (fn : Nat) (arg : Option Nat) (blk : context_list_t) (st : ThreadState)
  deriving Repr, DecidableEq

/-- Function `dart__tasking__context_entry` (lines 83-100): pop the block
that is about to run from the thread's tracking list, read the stored entry
function and argument, clear both fields, and invoke `fn(arg)`. -/
def dart__tasking__context_entry (st : ThreadState) : EntryOutcome :=
  match st.ctxlist with
  | [] => EntryOutcome.assert_null_ctxlist
  | ctxlist :: rest =>
      match ctxlist.ctx.fn with
      | none => EntryOutcome.call_null_fn
      | some fn =>
          EntryOutcome.invoke fn ctxlist.ctx.arg
            { ctxlist with ctx := { ctxlist.ctx with fn := none, arg := none } }
            { st with ctxlist := rest }

/-- Line 99: should the entry function return, the trampoline runs
`DART_ASSERT_MSG(NULL, "task context invocation function returned!")`.
Modelled from the spec: `DART_ASSERT_MSG` (dash/dart/base/assert.h, not
under src/) is the spec's fatal-abort primitive with a formatted message; an
abort is modelled as an error result. -/
def context_entry_on_return : Except String Unit :=
  Except.error "task context invocation function returned!"

/-- Result codes from dart_types.h used by this module. -/
inductive dart_ret_t where
  | DART_OK
  | DART_ERR_OTHER
  deriving Repr, DecidableEq

/-- State of a `dart__tasking__context_swap` call at the moment the
low-level `swapcontext` primitive is invoked, together with the result code
the call returns. -/
structure SwapResult where
  thread_at_switch : List context_list_t
  old_at_switch : context_t
  new_at_switch : context_t
  ret : dart_ret_t
  deriving Repr, DecidableEq

/-- Function `dart__tasking__context_swap` (lines 254-281) in the
`USE_UCONTEXT` build: push `new`'s containing block onto the thread's
tracking list if `new` still carries a pending entry function; clear `old`'s
pending entry function and argument if present; then call `swapcontext`.
The return value of that external, possibly failing primitive is the
parameter `swapcontext_ret`; the function reports `DART_ERR_OTHER` when it
is `-1` and `DART_OK` otherwise. -/
def dart__tasking__context_swap (st : ThreadState)
    (old_blk new_blk : context_list_t) (swapcontext_ret : Int) : SwapResult :=
  let l1 := if new_blk.ctx.fn.isSome then new_blk :: st.ctxlist else st.ctxlist
  let old1 :=
    if old_blk.ctx.fn.isSome then
      { old_blk.ctx with fn := none, arg := none }
    else old_blk.ctx
  { thread_at_switch := l1
    old_at_switch := old1
    new_at_switch := new_blk.ctx
    ret := if swapcontext_ret = -1 then dart_ret_t.DART_ERR_OTHER
           else dart_ret_t.DART_OK }

/-- The pop-and-free loop of `dart__tasking__context_cleanup`. -/
def context_cleanup_drain (l : List context_list_t) (st : ThreadState) :
    ThreadState :=
  match l with
  | [] => st
  | ctxlist :: rest =>
      context_cleanup_drain rest (dart__tasking__context_free st ctxlist)

/-- Function `dart__tasking__context_cleanup` (lines 283-296) in the
`USE_UCONTEXT` build: pop every block from the thread's list and physically
free each one. -/
def dart__tasking__context_cleanup (st : ThreadState) : ThreadState :=
  context_cleanup_drain st.ctxlist { st with ctxlist := [] }

/-- Function `dart__tasking__context_create` built without `USE_UCONTEXT`
(lines 159-199 with the guarded body removed by the preprocessor): the
function only executes `return NULL` and touches nothing. -/
def context_create_noucontext (st : ThreadState) (_fn _arg : Nat) :
    ThreadState × Option context_t := (st, none)

/-- Function `dart__tasking__context_release` built without `USE_UCONTEXT`
(lines 232-234).  Modelled from the spec: `DART_ASSERT_MSG(NULL, ...)`
(assert.h, not under src/) is the fatal-abort primitive; the abort and its
message are modelled as an error result. -/
def context_release_noucontext : Except String Unit :=
  Except.error
    "Cannot call dart__tasking__context_release without UCONTEXT support!"

/-- Function `dart__tasking__context_invoke` built without `USE_UCONTEXT`
(lines 249-251), modelled like `context_release_noucontext`. -/
def context_invoke_noucontext : Except String Unit :=
  Except.error
    "Cannot call dart__tasking__context_invoke without UCONTEXT support!"

/-- Function `dart__tasking__context_swap` built without `USE_UCONTEXT`
(lines 278-280), modelled like `context_release_noucontext`. -/
def context_swap_noucontext : Except String dart_ret_t :=
  Except.error
    "Cannot call dart__tasking__context_swap without UCONTEXT support!"

/-- Function `dart__tasking__context_cleanup` built without `USE_UCONTEXT`
(lines 293-295), modelled like `context_release_noucontext`. -/
def context_cleanup_noucontext : Except String Unit :=
  Except.error
    "Cannot call dart__tasking__context_cleanup without UCONTEXT support!"

/-- Invariant of the per-thread pool: each pooled block's `length` field
equals its depth in the pool, so the head's `length` is the pool size. -/
def poolDepthOk : List context_list_t → Bool
  | [] => true
  | b :: rest => b.length == rest.length + 1 && poolDepthOk rest

/-- Iterated `context_release` of a list of blocks on one thread. -/
def releaseMany (st : ThreadState) (blks : List context_list_t) : ThreadState :=
  blks.foldl (fun s b => (dart__tasking__context_release s b).1) st

/-- A worker-thread state before any context activity. -/
def emptyThread : ThreadState :=
  { ctxlist := [], nextRegion := 0, allocCount := 0, freeCount := 0 }

/-- A sample context block with intact canaries, for concrete runs. -/
def mkBlock (i : Nat) : context_list_t :=
  { ctx := { fn := none, arg := none, ss_sp := i }
    stack := i
    length := 0
    sentLow := 0xDEADBEEF
    sentHigh := 0xDEADBEEF }

/-- C3: `dart__tasking__context_init` never adopts a valid configured stack
size.  With a configured value of 32768 bytes and a 4096-byte page, the
resulting task stack size is the 16 KiB default, and in general the result
is the same as when the configuration is absent (`-1`): the comparison
`env_stack_size > -1` is carried out in `size_t`, where `(size_t)-1` is the
largest representable value, so it is false for every environment result. -/
theorem claim3_env_stacksize_ignored :
    dart__tasking__context_init 32768 4096 = 16384 ∧
    ∀ env_ret page_size, dart__tasking__context_init env_ret page_size =
      dart__tasking__context_init (-1) page_size := by
  constructor
  · decide
  · intro env_ret page_size
    have hlt : size_t_of env_ret < 2 ^ 64 := by
      unfold size_t_of
      have h1 : env_ret % (2 : Int) ^ 64 < (2 : Int) ^ 64 :=
        Int.emod_lt_of_pos env_ret (by norm_num)
      omega
    have hm1 : size_t_of (-1) = 2 ^ 64 - 1 := by decide
    unfold dart__tasking__context_init
    have hnot : ¬ (size_t_of (-1) < size_t_of env_ret) := by omega
    have hnot1 : ¬ (size_t_of (-1) < size_t_of (-1)) := by omega
    simp only [hnot, hnot1, if_false]

/-- C4: on first activation the entry trampoline pops the block from the
thread's tracking list (asserting it is non-null: on an empty list the
assertion fires), reads the stored entry function and argument, clears both
fields before invoking the entry function, and, should the entry function
return, aborts with the diagnostic
"task context invocation function returned!". -/
theorem claim4_trampoline_pops_clears_aborts (st : ThreadState)
    (blk : context_list_t) (rest : List context_list_t) (f : Nat)
    (h1 : st.ctxlist = blk :: rest) (h2 : blk.ctx.fn = some f) :
    dart__tasking__context_entry st =
      EntryOutcome.invoke f blk.ctx.arg
        { blk with ctx := { blk.ctx with fn := none, arg := none } }
        { st with ctxlist := rest } ∧
    (∀ st2 : ThreadState, st2.ctxlist = [] →
      dart__tasking__context_entry st2 = EntryOutcome.assert_null_ctxlist) ∧
    context_entry_on_return =
      Except.error "task context invocation function returned!" := by
  refine ⟨?_, ?_, rfl⟩
  · unfold dart__tasking__context_entry
    rw [h1]
    simp [h2]
  · intro st2 h
    unfold dart__tasking__context_entry
    rw [h]

/-- A concrete never-activated block for the C4 witness. -/
def wit4blk : context_list_t :=
  { mkBlock 3 with ctx := { fn := some 5, arg := some 7, ss_sp := 3 } }

/-- A concrete thread state for the C4 witness. -/
def wit4st : ThreadState := { emptyThread with ctxlist := [wit4blk] }

/-- Witness for C4 at a concrete thread state. -/
theorem claim4_witness :
    dart__tasking__context_entry wit4st =
      EntryOutcome.invoke 5 wit4blk.ctx.arg
        { wit4blk with ctx := { wit4blk.ctx with fn := none, arg := none } }
        { wit4st with ctxlist := [] } :=
  (claim4_trampoline_pops_clears_aborts wit4st wit4blk [] 5 rfl rfl).1

/-- C5: `dart__tasking__context_swap` reports `DART_OK` to the caller when
the low-level `swapcontext` primitive succeeds, and reports the explicit
error result `DART_ERR_OTHER` (instead of aborting) when the primitive
fails, that is, returns `-1`. -/
theorem claim5_swap_reports_switch_failure (st : ThreadState)
    (old_blk new_blk : context_list_t) (rc : Int) :
    (rc = -1 →
      (dart__tasking__context_swap st old_blk new_blk rc).ret =
        dart_ret_t.DART_ERR_OTHER) ∧
    (rc ≠ -1 →
      (dart__tasking__context_swap st old_blk new_blk rc).ret =
        dart_ret_t.DART_OK) := by
  constructor
  · intro h
    simp [dart__tasking__context_swap, h]
  · intro h
    simp [dart__tasking__context_swap, h]

/-- Witness for C5 at concrete inputs, one per branch. -/
theorem claim5_witness :
    (dart__tasking__context_swap emptyThread (mkBlock 0) (mkBlock 1) (-1)).ret =
      dart_ret_t.DART_ERR_OTHER ∧
    (dart__tasking__context_swap emptyThread (mkBlock 0) (mkBlock 1) 0).ret =
      dart_ret_t.DART_OK :=
  ⟨(claim5_swap_reports_switch_failure emptyThread (mkBlock 0) (mkBlock 1) (-1)).1 rfl,
   (claim5_swap_reports_switch_failure emptyThread (mkBlock 0) (mkBlock 1) 0).2 (by decide)⟩

/-- C6: when the calling thread's pool is non-empty, `context_create` pops
the block at the top of the pool and returns it: the returned block's Stack
Region is identical to the pooled block's (both the `stack` field and the
context's stack pointer), its counter is reset to `0`, its entry function
and argument are the new ones, the pool loses its head, and no new memory
allocation is performed. -/
theorem claim6_create_reuses_pooled_block (st : ThreadState) (fn arg : Nat)
    (head : context_list_t) (rest : List context_list_t)
    (h : st.ctxlist = head :: rest) :
    (dart__tasking__context_create st fn arg).2.stack = head.stack ∧
    (dart__tasking__context_create st fn arg).2.ctx.ss_sp = head.ctx.ss_sp ∧
    (dart__tasking__context_create st fn arg).2.length = 0 ∧
    (dart__tasking__context_create st fn arg).2.ctx.fn = some fn ∧
    (dart__tasking__context_create st fn arg).2.ctx.arg = some arg ∧
    (dart__tasking__context_create st fn arg).1.ctxlist = rest ∧
    (dart__tasking__context_create st fn arg).1.allocCount = st.allocCount ∧
    (dart__tasking__context_create st fn arg).1.nextRegion = st.nextRegion := by
  unfold dart__tasking__context_create
  rw [h]
  simp

/-- A concrete pooled block for the C6 witness. -/
def wit6blk : context_list_t := { mkBlock 4 with length := 1 }

/-- A concrete thread state with a one-element pool for the C6 witness. -/
def wit6st : ThreadState := { emptyThread with ctxlist := [wit6blk] }

/-- Witness for C6 at a concrete one-element pool. -/
theorem claim6_witness :
    (dart__tasking__context_create wit6st 8 9).2.stack = wit6blk.stack ∧
    (dart__tasking__context_create wit6st 8 9).1.allocCount = wit6st.allocCount :=
  ⟨(claim6_create_reuses_pooled_block wit6st 8 9 wit6blk [] rfl).1,
   (claim6_create_reuses_pooled_block wit6st 8 9 wit6blk [] rfl).2.2.2.2.2.2.1⟩

/-- C8: if `old` still carries a pending entry function, `swap` clears
`old`'s entry function and argument before performing the low-level switch;
and if `new` still carries a pending entry function, `swap` pushes `new`'s
block onto the calling thread's tracking list before switching, so that the
state at the moment `swapcontext` runs reflects both updates. -/
theorem claim8_swap_pending_entry_handling (st : ThreadState)
    (old_blk new_blk : context_list_t) (rc : Int) :
    (old_blk.ctx.fn.isSome = true →
      (dart__tasking__context_swap st old_blk new_blk rc).old_at_switch.fn = none ∧
      (dart__tasking__context_swap st old_blk new_blk rc).old_at_switch.arg = none) ∧
    (new_blk.ctx.fn.isSome = true →
      (dart__tasking__context_swap st old_blk new_blk rc).thread_at_switch =
        new_blk :: st.ctxlist) := by
  constructor
  · intro h
    simp [dart__tasking__context_swap, h]
  · intro h
    simp [dart__tasking__context_swap, h]

/-- A concrete block still carrying a pending entry, for the C8 witness. -/
def wit8blk : context_list_t :=
  { mkBlock 2 with ctx := { fn := some 1, arg := some 2, ss_sp := 2 } }

/-- Witness for C8 at concrete contexts still carrying pending entries. -/
theorem claim8_witness :
    (dart__tasking__context_swap emptyThread wit8blk wit8blk 0).old_at_switch.fn = none ∧
    (dart__tasking__context_swap emptyThread wit8blk wit8blk 0).thread_at_switch =
      wit8blk :: emptyThread.ctxlist :=
  ⟨((claim8_swap_pending_entry_handling emptyThread wit8blk wit8blk 0).1 rfl).1,
   (claim8_swap_pending_entry_handling emptyThread wit8blk wit8blk 0).2 rfl⟩

/-- C10: in a build without ucontext support, `context_create` returns a
`NULL` handle and performs no side effect, while `release`, `invoke`, `swap`
and `cleanup` each abort through the assertion primitive with a message
naming the missing `UCONTEXT` support. -/
theorem claim10_noucontext_build (st : ThreadState) (fn arg : Nat) :
    context_create_noucontext st fn arg = (st, none) ∧
    context_release_noucontext = Except.error
      "Cannot call dart__tasking__context_release without UCONTEXT support!" ∧
    context_invoke_noucontext = Except.error
      "Cannot call dart__tasking__context_invoke without UCONTEXT support!" ∧
    context_swap_noucontext = Except.error
      "Cannot call dart__tasking__context_swap without UCONTEXT support!" ∧
    context_cleanup_noucontext = Except.error
      "Cannot call dart__tasking__context_cleanup without UCONTEXT support!" :=
  ⟨rfl, rfl, rfl, rfl, rfl⟩

/-- C2 counterexample: a released context whose low-address sentinel has
been overwritten (so "either sentinel overwritten" holds) while the
high-address sentinel is intact produces no logged warning, because the
source requires both sentinels to mismatch (`&&`). -/
theorem claim2_counterexample :
    ({ mkBlock 0 with sentLow := 0 } : context_list_t).sentLow ≠ 0xDEADBEEF ∧
    (dart__tasking__context_release emptyThread
        { mkBlock 0 with sentLow := 0 }).2 = false := by
  decide

/-- C2 amended: in diagnostic builds `release` logs the stack-overflow
warning exactly when both sentinel values (at the lowest and highest
addresses of the usable stack) have been overwritten; and it never aborts:
for every sentinel state the release completes with the same pooling
decision (same resulting pool size and free count). -/
theorem claim2_canary_warning_requires_both (st : ThreadState)
    (blk : context_list_t) :
    ((dart__tasking__context_release st blk).2 = true ↔
      (blk.sentLow ≠ 0xDEADBEEF ∧ blk.sentHigh ≠ 0xDEADBEEF)) ∧
    (∀ lo hi,
      ((dart__tasking__context_release st
          { blk with sentLow := lo, sentHigh := hi }).1.ctxlist.length =
        (dart__tasking__context_release st blk).1.ctxlist.length) ∧
      ((dart__tasking__context_release st
          { blk with sentLow := lo, sentHigh := hi }).1.freeCount =
        (dart__tasking__context_release st blk).1.freeCount)) := by
  constructor
  · unfold dart__tasking__context_release context_release_guard_warning
    match h : st.ctxlist with
    | [] => simp
    | head :: tail =>
        by_cases hl : PER_THREAD_CTX_STORE < head.length <;> simp [hl]
  · intro lo hi
    unfold dart__tasking__context_release context_release_guard_warning
    match h : st.ctxlist with
    | [] => simp
    | head :: tail =>
        by_cases hl : PER_THREAD_CTX_STORE < head.length <;>
          simp [hl, dart__tasking__context_free]

/-- Unfolding lemma for `poolDepthOk` on a non-empty pool. -/
theorem poolDepthOk_cons (b : context_list_t) (rest : List context_list_t) :
    poolDepthOk (b :: rest) = true ↔
      (b.length = rest.length + 1 ∧ poolDepthOk rest = true) := by
  simp [poolDepthOk]

/-- One `context_release` step on a pool satisfying the depth invariant:
the invariant is preserved, the pool grows by one block while its size is at
most `PER_THREAD_CTX_STORE`, and otherwise the block is freed instead. -/
theorem context_release_step (st : ThreadState) (b : context_list_t)
    (hInv : poolDepthOk st.ctxlist = true) :
    poolDepthOk ((dart__tasking__context_release st b).1.ctxlist) = true ∧
    (dart__tasking__context_release st b).1.ctxlist.length =
      (if st.ctxlist.length ≤ PER_THREAD_CTX_STORE then st.ctxlist.length + 1
       else st.ctxlist.length) ∧
    (dart__tasking__context_release st b).1.freeCount =
      (if st.ctxlist.length ≤ PER_THREAD_CTX_STORE then st.freeCount
       else st.freeCount + 1) := by
  match h : st.ctxlist with
  | [] =>
      unfold dart__tasking__context_release
      rw [h]
      simp [poolDepthOk, PER_THREAD_CTX_STORE]
  | head :: tail =>
      rw [h] at hInv
      rw [poolDepthOk_cons] at hInv
      have hlen : head.length = (head :: tail).length := by
        simp [hInv.1]
      unfold dart__tasking__context_release
      rw [h]
      by_cases hl : PER_THREAD_CTX_STORE < head.length
      · have hcond : ¬ ((head :: tail).length ≤ PER_THREAD_CTX_STORE) := by
          omega
        simp only [hl, if_true, hcond, if_false]
        refine ⟨?_, by simp [dart__tasking__context_free, h], by simp [dart__tasking__context_free]⟩
        simp [dart__tasking__context_free, h, poolDepthOk_cons, hInv.1, hInv.2]
      · have hcond : (head :: tail).length ≤ PER_THREAD_CTX_STORE := by
          omega
        simp only [hl, if_false, hcond, if_true]
        refine ⟨?_, by simp, by simp⟩
        rw [poolDepthOk_cons]
        refine ⟨by simp [hInv.1], ?_⟩
        rw [poolDepthOk_cons]
        exact hInv

/-- Iterated release starting from a pool that satisfies the depth invariant
and holds at most eleven blocks: the pool caps at eleven blocks and every
further released block is physically freed. -/
theorem releaseMany_props (blks : List context_list_t) :
    ∀ st : ThreadState, poolDepthOk st.ctxlist = true →
      st.ctxlist.length ≤ 11 →
      poolDepthOk ((releaseMany st blks).ctxlist) = true ∧
      (releaseMany st blks).ctxlist.length =
        min (st.ctxlist.length + blks.length) 11 ∧
      (releaseMany st blks).freeCount =
        st.freeCount + (st.ctxlist.length + blks.length - 11) := by
  induction blks with
  | nil =>
      intro st hInv hLe
      refine ⟨hInv, ?_, ?_⟩ <;> simp [releaseMany] <;> omega
  | cons b rest ih =>
      intro st hInv hLe
      have hstep := context_release_step st b hInv
      have hfold : releaseMany st (b :: rest) =
          releaseMany (dart__tasking__context_release st b).1 rest := by
        simp [releaseMany]
      rw [hfold]
      by_cases hc : st.ctxlist.length ≤ PER_THREAD_CTX_STORE
      · have h10 : st.ctxlist.length ≤ 10 := by
          simpa [PER_THREAD_CTX_STORE] using hc
        rcases hstep with ⟨hInv2, hLen2, hF2⟩
        rw [if_pos hc] at hLen2 hF2
        have := ih (dart__tasking__context_release st b).1 hInv2 (by omega)
        rcases this with ⟨i1, i2, i3⟩
        refine ⟨i1, ?_, ?_⟩
        · rw [i2, hLen2]
          simp only [List.length_cons]
          omega
        · rw [i3, hF2, hLen2]
          simp only [List.length_cons]
          omega
      · have h11 : st.ctxlist.length = 11 := by
          simp only [PER_THREAD_CTX_STORE] at hc
          omega
        rcases hstep with ⟨hInv2, hLen2, hF2⟩
        rw [if_neg hc] at hLen2 hF2
        have := ih (dart__tasking__context_release st b).1 hInv2 (by omega)
        rcases this with ⟨i1, i2, i3⟩
        refine ⟨i1, ?_, ?_⟩
        · rw [i2, hLen2]
          simp only [List.length_cons]
          omega
        · rw [i3, hF2, hLen2]
          simp only [List.length_cons]
          omega

/-- C1 counterexample: releasing eleven contexts on one worker thread whose
pool starts empty leaves all eleven blocks pooled and frees none of them,
although eleven exceeds `PER_THREAD_CTX_STORE = 10`; in particular the
eleventh release pooled its block even though the pool already held ten. -/
theorem claim1_counterexample :
    (releaseMany emptyThread ((List.range 11).map mkBlock)).ctxlist.length = 11 ∧
    (releaseMany emptyThread ((List.range 11).map mkBlock)).freeCount = 0 := by
  decide

/-- C1 amended: releasing N contexts on one worker thread whose pool starts
empty, where N is at least eleven, leaves exactly eleven (that is,
`PER_THREAD_CTX_STORE + 1`) blocks retained in that thread's pool and
physically frees the remaining N - 11; equivalently, `release` frees the
block instead of pooling it exactly when the pool already holds at least
eleven blocks. -/
theorem claim1_pool_retains_eleven (blks : List context_list_t)
    (h : 11 ≤ blks.length) :
    (releaseMany emptyThread blks).ctxlist.length = PER_THREAD_CTX_STORE + 1 ∧
    (releaseMany emptyThread blks).freeCount =
      blks.length - (PER_THREAD_CTX_STORE + 1) ∧
    ∀ st b, poolDepthOk st.ctxlist = true →
      ((dart__tasking__context_release st b).1.freeCount = st.freeCount + 1 ↔
        PER_THREAD_CTX_STORE + 1 ≤ st.ctxlist.length) := by
  have hrun := releaseMany_props blks emptyThread (by decide) (by decide)
  rcases hrun with ⟨_, h2, h3⟩
  have hlen0 : emptyThread.ctxlist.length = 0 := by decide
  have hfc0 : emptyThread.freeCount = 0 := by decide
  refine ⟨?_, ?_, ?_⟩
  · rw [h2, hlen0]
    simp [PER_THREAD_CTX_STORE]
    omega
  · rw [h3, hlen0, hfc0]
    simp [PER_THREAD_CTX_STORE]
  · intro st b hInv
    have hstep := context_release_step st b hInv
    rcases hstep with ⟨-, -, hF⟩
    by_cases hc : st.ctxlist.length ≤ PER_THREAD_CTX_STORE
    · rw [if_pos hc] at hF
      rw [hF]
      constructor
      · intro hx
        omega
      · intro hx
        omega
    · rw [if_neg hc] at hF
      rw [hF]
      constructor
      · intro _
        omega
      · intro _
        rfl

/-- Witness for C1 (amended) at a concrete run of twelve releases. -/
theorem claim1_witness :
    11 ≤ ((List.range 12).map mkBlock).length ∧
    (releaseMany emptyThread ((List.range 12).map mkBlock)).ctxlist.length =
      PER_THREAD_CTX_STORE + 1 ∧
    (releaseMany emptyThread ((List.range 12).map mkBlock)).freeCount =
      ((List.range 12).map mkBlock).length - (PER_THREAD_CTX_STORE + 1) :=
  ⟨by decide,
   (claim1_pool_retains_eleven ((List.range 12).map mkBlock) (by decide)).1,
   (claim1_pool_retains_eleven ((List.range 12).map mkBlock) (by decide)).2.1⟩

/-- The cleanup drain loop only frees blocks; it leaves the `ctxlist` field
of the state it threads through untouched. -/
theorem context_cleanup_drain_ctxlist (l : List context_list_t) :
    ∀ st : ThreadState, (context_cleanup_drain l st).ctxlist = st.ctxlist := by
  induction l with
  | nil => intro st; rfl
  | cons c rest ih =>
      intro st
      simp [context_cleanup_drain, ih, dart__tasking__context_free]

/-- C9: on a single thread, the `length` field works as a pool-depth
counter, not a per-block reuse count: under the invariant that every pooled
block's `length` equals its depth in the pool, `create` preserves the
invariant and zeroes the popped block's `length`; `release` preserves the
invariant and pushes the released block with previous-pool-size-plus-one
stored in `length` whenever it pools it; `cleanup` leaves an empty pool; and
the head block's `length` equals the number of blocks in the pool. -/
theorem claim9_length_counts_pool_depth (st : ThreadState) (fn arg : Nat)
    (h : poolDepthOk st.ctxlist = true) :
    poolDepthOk ((dart__tasking__context_create st fn arg).1.ctxlist) = true ∧
    (dart__tasking__context_create st fn arg).2.length = 0 ∧
    (∀ b, poolDepthOk ((dart__tasking__context_release st b).1.ctxlist) = true) ∧
    (∀ b, st.ctxlist.length ≤ PER_THREAD_CTX_STORE →
      (dart__tasking__context_release st b).1.ctxlist =
        { b with length := st.ctxlist.length + 1 } :: st.ctxlist) ∧
    (dart__tasking__context_cleanup st).ctxlist = [] ∧
    (∀ b rest, st.ctxlist = b :: rest → b.length = st.ctxlist.length) := by
  refine ⟨?_, ?_, ?_, ?_, ?_, ?_⟩
  · match hl : st.ctxlist with
    | [] =>
        unfold dart__tasking__context_create
        rw [hl]
        simp [dart__tasking__context_allocate, hl, poolDepthOk]
    | head :: tail =>
        rw [hl] at h
        rw [poolDepthOk_cons] at h
        unfold dart__tasking__context_create
        rw [hl]
        simpa using h.2
  · unfold dart__tasking__context_create
    match hl : st.ctxlist with
    | [] => simp [dart__tasking__context_allocate]
    | head :: tail => simp
  · intro b
    exact (context_release_step st b h).1
  · intro b hle
    match hl : st.ctxlist with
    | [] =>
        unfold dart__tasking__context_release
        rw [hl]
        simp
    | head :: tail =>
        rw [hl] at h
        rw [poolDepthOk_cons] at h
        have hlen : head.length = (head :: tail).length := by
          simp [h.1]
        have hno : ¬ (PER_THREAD_CTX_STORE < head.length) := by
          rw [hl] at hle
          omega
        unfold dart__tasking__context_release
        rw [hl]
        simp only [hno, if_false]
        rw [hlen]
  · unfold dart__tasking__context_cleanup
    rw [context_cleanup_drain_ctxlist]
  · intro b rest hl
    rw [hl] at h
    rw [poolDepthOk_cons] at h
    simp [h.1, hl]

/-- A concrete thread state with a valid one-block pool for the C9 witness. -/
def wit9st : ThreadState :=
  { emptyThread with ctxlist := [{ mkBlock 0 with length := 1 }] }

/-- Witness for C9 at a concrete one-block pool. -/
theorem claim9_witness :
    poolDepthOk wit9st.ctxlist = true ∧
    (dart__tasking__context_create wit9st 1 2).2.length = 0 ∧
    (dart__tasking__context_cleanup wit9st).ctxlist = [] :=
  ⟨by decide,
   (claim9_length_counts_pool_depth wit9st 1 2 (by decide)).2.1,
   (claim9_length_counts_pool_depth wit9st 1 2 (by decide)).2.2.2.2.1⟩

/-- Bitwise AND with the 64-bit complement of a low-bits mask clears the low
`k` bits: for any value below `2^64`, `x &&& (2^64 - 2^k)` rounds `x` down
to a multiple of `2^k`. -/
theorem land_two_pow_complement (x k : Nat) (hx : x < 2 ^ 64) (hk : k ≤ 64) :
    x &&& (2 ^ 64 - 2 ^ k) = x / 2 ^ k * 2 ^ k := by
  have hsplit : (2 : Nat) ^ 64 - 2 ^ k = 2 ^ k * (2 ^ (64 - k) - 1) := by
    have h1 : (2 : Nat) ^ k * 2 ^ (64 - k) = 2 ^ 64 := by
      rw [← pow_add]
      congr 1
      omega
    rw [Nat.mul_sub_left_distrib, h1, Nat.mul_one]
  have hR : ∀ i, Nat.testBit (x / 2 ^ k * 2 ^ k) i =
      (decide (k ≤ i) && Nat.testBit x i) := by
    intro i
    rw [Nat.mul_comm, Nat.testBit_mul_pow_two]
    by_cases hik : k ≤ i
    · have hdiv : x / 2 ^ k = x >>> k := (Nat.shiftRight_eq_div_pow x k).symm
      rw [hdiv, Nat.testBit_shiftRight]
      have hi : k + (i - k) = i := by omega
      rw [hi]
    · simp [hik]
  have hL : ∀ i, Nat.testBit (2 ^ k * (2 ^ (64 - k) - 1)) i =
      (decide (k ≤ i) && decide (i < 64)) := by
    intro i
    rw [Nat.testBit_mul_pow_two, Nat.testBit_two_pow_sub_one]
    by_cases hik : k ≤ i
    · have hiff : (i - k < 64 - k) ↔ (i < 64) := by omega
      simp [hik, hiff]
    · simp [hik]
  apply Nat.eq_of_testBit_eq
  intro i
  rw [hsplit, Nat.testBit_and, hL i, hR i]
  by_cases h64 : i < 64
  · cases hb : Nat.testBit x i <;> simp [h64]
  · have hxi : Nat.testBit x i = false := by
      apply Nat.testBit_lt_two_pow
      calc x < 2 ^ 64 := hx
      _ ≤ 2 ^ i := Nat.pow_le_pow_right (by norm_num) (by omega)
    simp [hxi, h64]

/-- Arithmetic facts about rounding up to a multiple: for positive `p`,
`(size + (p - 1)) / p * p` is the least multiple of `p` that is at least
`size`. -/
theorem round_up_to_multiple_props (p size : Nat) (hps : 0 < p) :
    (size + (p - 1)) / p * p % p = 0 ∧
    size ≤ (size + (p - 1)) / p * p ∧
    (size + (p - 1)) / p * p < size + p ∧
    (size % p = 0 → (size + (p - 1)) / p * p = size) := by
  obtain ⟨q, hq⟩ : ∃ q, (size + (p - 1)) / p = q := ⟨_, rfl⟩
  obtain ⟨m, hm2⟩ : ∃ m, (size + (p - 1)) % p = m := ⟨_, rfl⟩
  have hdm2 : q * p + m = size + (p - 1) := by
    rw [← hq, ← hm2, Nat.mul_comm]
    exact Nat.div_add_mod _ _
  have hmlt2 : m < p := by
    rw [← hm2]
    exact Nat.mod_lt _ hps
  obtain ⟨t, ht⟩ : ∃ t, q * p = t := ⟨_, rfl⟩
  rw [ht] at hdm2
  rw [hq]
  refine ⟨Nat.mul_mod_left q p, ?_, ?_, ?_⟩
  · rw [ht]
    omega
  · rw [ht]
    omega
  · intro h0
    have hmp : m = p - 1 := by
      rw [← hm2, Nat.add_mod, h0, Nat.zero_add,
          Nat.mod_mod_of_dvd _ (dvd_refl p), Nat.mod_eq_of_lt (by omega)]
    rw [ht]
    omega

/-- C7 counterexample: for the requested size `2^64 - 1` (with a 4096-byte
page), the `size_t` sum `size + mask` wraps around, and the size-adjustment
step returns a value strictly below the requested size, so the result is not
"at least the requested size" as the claim states for every requested
size. -/
theorem claim7_counterexample :
    dart__tasking__context_adjust_size 4096 (2 ^ 64 - 1) < 2 ^ 64 - 1 := by
  have h1 : dart__tasking__context_adjust_size 4096 (2 ^ 64 - 1) =
      4094 &&& (2 ^ 64 - 2 ^ 12) := by
    show ((2 ^ 64 - 1 + (4096 - 1)) % 2 ^ 64) &&& ((2 ^ 64 - 1) - (4096 - 1)) =
      4094 &&& (2 ^ 64 - 2 ^ 12)
    norm_num
  rw [h1, land_two_pow_complement 4094 12 (by norm_num) (by norm_num)]
  norm_num

/-- C7 amended: for every power-of-two page size `2^k` (`k ≤ 64`) and every
requested size such that `size + page_size - 1` does not overflow `size_t`
(is below `2^64`), the size-adjustment step rounds the requested size up to
the next multiple of the page size: the result is a multiple of the page
size, is at least the requested size, is less than the requested size plus
one page, and sizes that are already page multiples stay unchanged. -/
theorem claim7_adjust_size_rounds_up (k size : Nat) (hk : k ≤ 64)
    (hov : size + (2 ^ k - 1) < 2 ^ 64) :
    dart__tasking__context_adjust_size (2 ^ k) size % 2 ^ k = 0 ∧
    size ≤ dart__tasking__context_adjust_size (2 ^ k) size ∧
    dart__tasking__context_adjust_size (2 ^ k) size < size + 2 ^ k ∧
    (size % 2 ^ k = 0 → dart__tasking__context_adjust_size (2 ^ k) size = size) := by
  have hps : 0 < 2 ^ k := Nat.two_pow_pos k
  have hle : (2 : Nat) ^ k ≤ 2 ^ 64 := Nat.pow_le_pow_right (by norm_num) hk
  have hkey : dart__tasking__context_adjust_size (2 ^ k) size =
      (size + (2 ^ k - 1)) / 2 ^ k * 2 ^ k := by
    show ((size + (2 ^ k - 1)) % 2 ^ 64) &&& ((2 ^ 64 - 1) - (2 ^ k - 1)) =
      (size + (2 ^ k - 1)) / 2 ^ k * 2 ^ k
    rw [Nat.mod_eq_of_lt hov]
    have hmask : (2 : Nat) ^ 64 - 1 - (2 ^ k - 1) = 2 ^ 64 - 2 ^ k := by omega
    rw [hmask]
    exact land_two_pow_complement _ k hov hk
  rw [hkey]
  exact round_up_to_multiple_props (2 ^ k) size hps

/-- Witness for C7 (amended) at a concrete page size and request. -/
theorem claim7_witness :
    (12 ≤ 64 ∧ 4097 + (2 ^ 12 - 1) < 2 ^ 64) ∧
    dart__tasking__context_adjust_size (2 ^ 12) 4097 % 2 ^ 12 = 0 ∧
    4097 ≤ dart__tasking__context_adjust_size (2 ^ 12) 4097 ∧
    dart__tasking__context_adjust_size (2 ^ 12) 4097 < 4097 + 2 ^ 12 :=
  ⟨⟨by norm_num, by norm_num⟩,
   (claim7_adjust_size_rounds_up 12 4097 (by norm_num) (by norm_num)).1,
   (claim7_adjust_size_rounds_up 12 4097 (by norm_num) (by norm_num)).2.1,
   (claim7_adjust_size_rounds_up 12 4097 (by norm_num) (by norm_num)).2.2.1⟩
